import Mathlib

/-!
Shallow embedding of the Greepy terminal-grid core (`src/App.tsx`):
grid geometry (`getGrid`), the split/close keyboard handler, pane close
and active-id repair, snapshot build/rehydrate, the busy-state
classifier, and the PTY-creation serializer.  Definitions mirror the
TypeScript source; JS numbers are modelled as `Nat` where the source
only ever holds nonnegative integers.
-/

namespace Greepy

/-- Preferred split orientation, the `"horizontal" | "vertical"` union
type of the source. -/
inductive Orientation where
  | horizontal
  | vertical
deriving DecidableEq, Repr

/-- Result of `getGrid`: the `{ rows, cols }` object. -/
structure Grid where
  rows : Nat
  cols : Nat
deriving DecidableEq, Repr

/-- `const MAX_SPLITS = 6` (App.tsx:752). -/
def MAX_SPLITS : Nat := 6

/-- `Number.MAX_SAFE_INTEGER`, the initial `bestDiff`. -/
def MAX_SAFE_INTEGER : Nat := 9007199254740991

/-- `Math.abs(rows - cols)` for nonnegative integers. -/
def absDiff (a b : Nat) : Nat := Nat.max a b - Nat.min a b

/-- The divisor-search loop of `getGrid` (App.tsx:2157-2168):
`for (let i = 1; i <= Math.sqrt(safeCount); i += 1)` keeping the factor
pair `(i, safeCount / i)` with the least `|rows - cols|`.  The loop
bound `i <= Math.sqrt(safeCount)` is expressed as `i * i ≤ safeCount`
(equivalent for nonnegative integers); indices beyond it contribute
nothing.  Returns `(bestRows, bestCols, bestDiff)`; the initial
accumulator is `(1, safeCount, Number.MAX_SAFE_INTEGER)`. -/
def gridLoop (safeCount : Nat) : Nat × Nat × Nat :=
  (List.range' 1 safeCount).foldl
    (fun acc i =>
      if i * i ≤ safeCount ∧ safeCount % i = 0 then
        let rows := i
        let cols := safeCount / i
        let diff := absDiff rows cols
        if diff < acc.2.2 then (rows, cols, diff) else acc
      else acc)
    (1, safeCount, MAX_SAFE_INTEGER)

/-- `getGrid(count, preferred)` (App.tsx:2151-2191): most-square factor
pair, clamped to 6×6 above 36 cells, with a degenerate-strip fallback
when `safeCount % bestRows !== 0` and an orientation swap otherwise. -/
def getGrid (count : Nat) (preferred : Orientation) : Grid :=
  let safeCount := Nat.max 1 count
  let best := gridLoop safeCount
  let clamped :=
    if safeCount > MAX_SPLITS * MAX_SPLITS then (MAX_SPLITS, MAX_SPLITS)
    else (best.1, best.2.1)
  let bestRows := clamped.1
  let bestCols := clamped.2
  if safeCount % bestRows ≠ 0 then
    -- Prime count, choose orientation based on preferred split.
    match preferred with
    | Orientation.horizontal => ⟨safeCount, 1⟩
    | Orientation.vertical => ⟨1, safeCount⟩
  else if preferred = Orientation.horizontal ∧ bestRows < bestCols then
    ⟨bestCols, bestRows⟩
  else if preferred = Orientation.vertical ∧ bestCols < bestRows then
    ⟨bestCols, bestRows⟩
  else
    ⟨bestRows, bestCols⟩

/-- Exhaustive check of `getGrid` on the non-clamped range `1..36`:
the returned pair multiplies back to the pane count. -/
lemma getGrid_prod_check : ∀ N < 37, 1 ≤ N →
    (getGrid N Orientation.horizontal).rows *
        (getGrid N Orientation.horizontal).cols = N ∧
      (getGrid N Orientation.vertical).rows *
        (getGrid N Orientation.vertical).cols = N := by
  decide

/-- Exhaustive check of `getGrid` on `1..36`, horizontal preference:
the chosen pair is most square among the divisor pairs `(a, N / a)`. -/
lemma getGrid_min_check_h : ∀ N < 37, 1 ≤ N → ∀ a < 37, 1 ≤ a → N % a = 0 →
    absDiff (getGrid N Orientation.horizontal).rows
      (getGrid N Orientation.horizontal).cols ≤ absDiff a (N / a) := by
  decide

/-- Exhaustive check of `getGrid` on `1..36`, vertical preference: the
chosen pair is most square among the divisor pairs `(a, N / a)`. -/
lemma getGrid_min_check_v : ∀ N < 37, 1 ≤ N → ∀ a < 37, 1 ≤ a → N % a = 0 →
    absDiff (getGrid N Orientation.vertical).rows
      (getGrid N Orientation.vertical).cols ≤ absDiff a (N / a) := by
  decide

/-- Any factor of an `N ≤ 36` is itself at most 36, positive, divides
`N`, and determines its cofactor as `N / a`. -/
lemma factor_facts (N a b : Nat) (h1 : 1 ≤ N) (h36 : N ≤ 36)
    (hab : a * b = N) : a < 37 ∧ 1 ≤ a ∧ N % a = 0 ∧ N / a = b := by
  have ha : a ≠ 0 := by rintro rfl; omega
  have hb : b ≠ 0 := by rintro rfl; omega
  have haN : a ≤ N := by
    calc a = a * 1 := (Nat.mul_one a).symm
    _ ≤ a * b := Nat.mul_le_mul_left a (Nat.one_le_iff_ne_zero.mpr hb)
    _ = N := hab
  refine ⟨by omega, by omega, ?_, ?_⟩
  · subst hab
    exact Nat.mul_mod_right a b
  · subst hab
    exact Nat.mul_div_cancel_left b (Nat.pos_of_ne_zero ha)

/-- Exhaustive check of `getGrid` on `1..36`: horizontal preference
yields `rows ≥ cols`, vertical preference yields `cols ≥ rows`. -/
lemma getGrid_orient_check : ∀ N < 37, 1 ≤ N →
    (getGrid N Orientation.horizontal).cols ≤
        (getGrid N Orientation.horizontal).rows ∧
      (getGrid N Orientation.vertical).rows ≤
        (getGrid N Orientation.vertical).cols := by
  decide

/-- C1: for every pane count `N` with `1 ≤ N ≤ 36` and every preferred
orientation, `getGrid N preferred` returns a pair `(rows, cols)` with
`rows * cols = N`, and `|rows - cols|` is minimal among all factor
pairs of `N`. -/
theorem getGrid_exact_product_most_square (N : Nat) (pref : Orientation)
    (h1 : 1 ≤ N) (h36 : N ≤ 36) :
    (getGrid N pref).rows * (getGrid N pref).cols = N ∧
      ∀ a b : Nat, a * b = N →
        absDiff (getGrid N pref).rows (getGrid N pref).cols ≤ absDiff a b := by
  have hN : N < 37 := by omega
  constructor
  · cases pref
    · exact (getGrid_prod_check N hN h1).1
    · exact (getGrid_prod_check N hN h1).2
  · intro a b hab
    obtain ⟨ha37, ha1, hmod, hdiv⟩ := factor_facts N a b h1 h36 hab
    cases pref
    · have h := getGrid_min_check_h N hN h1 a ha37 ha1 hmod
      rwa [hdiv] at h
    · have h := getGrid_min_check_v N hN h1 a ha37 ha1 hmod
      rwa [hdiv] at h

/-- Witness for C1 at `N = 12`, horizontal preference: compares against
the factor pair `2 × 6`. -/
theorem getGrid_exact_product_most_square_witness :
    (getGrid 12 Orientation.horizontal).rows *
        (getGrid 12 Orientation.horizontal).cols = 12 ∧
      absDiff (getGrid 12 Orientation.horizontal).rows
        (getGrid 12 Orientation.horizontal).cols ≤ absDiff 2 6 :=
  ⟨(getGrid_exact_product_most_square 12 Orientation.horizontal
      (by decide) (by decide)).1,
    (getGrid_exact_product_most_square 12 Orientation.horizontal
      (by decide) (by decide)).2 2 6 (by decide)⟩

/-- C2 counterexample: for `N = 37 > 36` the clamp to 6×6 does not
survive; since `37 % 6 ≠ 0` the degenerate-strip branch overrides it,
so `getGrid` returns `37×1` (horizontal) and `1×37` (vertical), not
`6×6`. -/
theorem getGrid_clamp_counterexample :
    getGrid 37 Orientation.horizontal = ⟨37, 1⟩ ∧
      getGrid 37 Orientation.horizontal ≠ ⟨6, 6⟩ ∧
      getGrid 37 Orientation.vertical = ⟨1, 37⟩ ∧
      getGrid 37 Orientation.vertical ≠ ⟨6, 6⟩ := by
  decide

/-- C2 (amended): for every pane count `N > 36`, `getGrid` returns
`6×6` exactly when `6` divides `N`; otherwise the clamped pair fails
the `safeCount % bestRows === 0` test and `getGrid` falls back to the
degenerate strip `N×1` (horizontal preference) or `1×N` (vertical
preference). -/
theorem getGrid_over_capacity (N : Nat) (pref : Orientation)
    (h36 : 36 < N) :
    (N % 6 = 0 → getGrid N pref = ⟨6, 6⟩) ∧
      (N % 6 ≠ 0 → getGrid N pref =
        match pref with
        | Orientation.horizontal => ⟨N, 1⟩
        | Orientation.vertical => ⟨1, N⟩) := by
  have hmax : Nat.max 1 N = N := Nat.max_eq_right (by omega)
  constructor
  · intro h6
    cases pref <;> simp [getGrid, hmax, MAX_SPLITS, h36, h6]
  · intro h6
    cases pref <;> simp [getGrid, hmax, MAX_SPLITS, h36, h6]

/-- Witness for C2 (amended) at `N = 42` (divisible by 6, horizontal)
and `N = 37` (not divisible by 6, vertical). -/
theorem getGrid_over_capacity_witness :
    getGrid 42 Orientation.horizontal = ⟨6, 6⟩ ∧
      getGrid 37 Orientation.vertical = ⟨1, 37⟩ :=
  ⟨(getGrid_over_capacity 42 Orientation.horizontal (by decide)).1
      (by decide),
    (getGrid_over_capacity 37 Orientation.vertical (by decide)).2
      (by decide)⟩

/-- C3: for `1 ≤ N ≤ 36`, horizontal preference yields `rows ≥ cols`
and vertical preference yields `cols ≥ rows`; in particular
`getGrid 6 horizontal = (3,2)`, `getGrid 6 vertical = (2,3)`,
`getGrid 7 horizontal = (7,1)`, and `getGrid 7 vertical = (1,7)`. -/
theorem getGrid_orientation_preference (N : Nat) (h1 : 1 ≤ N)
    (h36 : N ≤ 36) :
    ((getGrid N Orientation.horizontal).cols ≤
        (getGrid N Orientation.horizontal).rows ∧
      (getGrid N Orientation.vertical).rows ≤
        (getGrid N Orientation.vertical).cols) ∧
      getGrid 6 Orientation.horizontal = ⟨3, 2⟩ ∧
      getGrid 6 Orientation.vertical = ⟨2, 3⟩ ∧
      getGrid 7 Orientation.horizontal = ⟨7, 1⟩ ∧
      getGrid 7 Orientation.vertical = ⟨1, 7⟩ :=
  ⟨getGrid_orient_check N (by omega) h1, by decide, by decide, by decide,
    by decide⟩

/-- Witness for C3 at `N = 8`. -/
theorem getGrid_orientation_preference_witness :
    (getGrid 8 Orientation.horizontal).cols ≤
        (getGrid 8 Orientation.horizontal).rows ∧
      (getGrid 8 Orientation.vertical).rows ≤
        (getGrid 8 Orientation.vertical).cols :=
  (getGrid_orientation_preference 8 (by decide) (by decide)).1

/-- `type Pane = { id: string; name: string }` (App.tsx:18-21). -/
structure Pane where
  id : String
  name : String
deriving DecidableEq, Repr

/-- `createPane(index)` (App.tsx:787-790): a pane named
`Terminal ${index}` with an id from `createRuntimeId("pane")`.  The
random UUID is modelled as an explicit `freshId` argument. -/
def createPane (freshId : String) (index : Nat) : Pane :=
  { id := freshId, name := "Terminal " ++ toString index }

/-- The pane-list update of the split branch of `handleKey`
(App.tsx:2261-2268): find the active pane, insert
`createPane(next.length + 1)` immediately after it (or at the end when
the active id is absent, `activeIndex === -1`). -/
def splitPanes (panes : List Pane) (activeId freshId : String) :
    List Pane :=
  let insertIndex :=
    match panes.findIdx? (fun pane => pane.id == activeId) with
    | none => panes.length
    | some activeIndex => activeIndex + 1
  List.insertIdx insertIndex (createPane freshId (panes.length + 1)) panes

/-- The pane-list update of `handleClose(id)` (App.tsx:2286-2290):
no-op on the last pane, otherwise drop every pane whose id matches.
The startup-command bookkeeping of `handleClose` touches no pane and
is not modelled. -/
def handleClose (panes : List Pane) (id : String) : List Pane :=
  if panes.length ≤ 1 then panes
  else panes.filter (fun pane => !(pane.id == id))

/-- The active-id repair effect (App.tsx:1802-1806): when the active id
is not among the panes and the list is nonempty, fall back to the first
pane's id. -/
def repairActiveId (panes : List Pane) (activeId : String) : String :=
  match panes.find? (fun pane => pane.id == activeId), panes with
  | none, pane :: _ => pane.id
  | _, _ => activeId

/-- The tab-level state the keyboard handler updates. -/
structure TabState where
  panes : List Pane
  activeId : String
  lastSplit : Orientation
deriving DecidableEq, Repr

/-- The three pane keybindings reaching the guarded tail of
`handleKey`: `Ctrl+D`, `Ctrl+V` variants for splits and `Ctrl+W` for
close. -/
inductive PaneCommand where
  | splitHorizontal
  | splitVertical
  | closeActive
deriving DecidableEq, Repr

/-- The split/close core of the keyboard handler `handleKey`
(App.tsx:2244-2269): return unchanged unless the project is ready;
return unchanged when `panes.length >= MAX_SPLITS * MAX_SPLITS`; then
either close the active pane or insert a fresh pane after it and record
the orientation used. -/
def handleKey (isProjectReady : Bool) (st : TabState)
    (cmd : PaneCommand) (freshId : String) : TabState :=
  if !isProjectReady then st
  else if MAX_SPLITS * MAX_SPLITS ≤ st.panes.length then st
  else
    match cmd with
    | PaneCommand.closeActive =>
        { st with panes := handleClose st.panes st.activeId }
    | PaneCommand.splitHorizontal =>
        { st with panes := splitPanes st.panes st.activeId freshId,
                  lastSplit := Orientation.horizontal }
    | PaneCommand.splitVertical =>
        { st with panes := splitPanes st.panes st.activeId freshId,
                  lastSplit := Orientation.vertical }

/-- C6: with at least 36 panes, a split request is silently rejected
before any pane is added: the handler returns the state unchanged, for
either orientation and whatever the readiness flag. -/
theorem handleKey_split_overflow_rejected (ready : Bool) (st : TabState)
    (freshId : String)
    (h : MAX_SPLITS * MAX_SPLITS ≤ st.panes.length) :
    handleKey ready st PaneCommand.splitHorizontal freshId = st ∧
      handleKey ready st PaneCommand.splitVertical freshId = st := by
  cases ready <;> simp [handleKey, h]

/-- Witness for C6 on a concrete full 6×6 grid. -/
theorem handleKey_split_overflow_rejected_witness :
    handleKey true
        ⟨List.replicate 36 ⟨"p", "Terminal 1"⟩, "p",
          Orientation.horizontal⟩
        PaneCommand.splitHorizontal "q" =
      ⟨List.replicate 36 ⟨"p", "Terminal 1"⟩, "p",
        Orientation.horizontal⟩ :=
  (handleKey_split_overflow_rejected true
    ⟨List.replicate 36 ⟨"p", "Terminal 1"⟩, "p", Orientation.horizontal⟩
    "q" (by decide)).1

/-- C10: with at least 36 panes the `Ctrl+W` close path is also
unreachable: the 36-pane guard returns before the close branch, so the
handler leaves the state unchanged even though more than one pane
exists. -/
theorem handleKey_close_blocked_on_full_grid (ready : Bool)
    (st : TabState) (freshId : String)
    (h : MAX_SPLITS * MAX_SPLITS ≤ st.panes.length) :
    handleKey ready st PaneCommand.closeActive freshId = st ∧
      1 < st.panes.length := by
  refine ⟨?_, ?_⟩
  · cases ready <;> simp [handleKey, h]
  · simp [MAX_SPLITS] at h
    omega

/-- Witness for C10 on a concrete full 6×6 grid of distinct panes. -/
theorem handleKey_close_blocked_on_full_grid_witness :
    handleKey true
        ⟨(List.range 36).map
            (fun i => ⟨"pane-" ++ toString i, "Terminal " ++ toString i⟩),
          "pane-0", Orientation.horizontal⟩
        PaneCommand.closeActive "q" =
      ⟨(List.range 36).map
          (fun i => ⟨"pane-" ++ toString i, "Terminal " ++ toString i⟩),
        "pane-0", Orientation.horizontal⟩ :=
  (handleKey_close_blocked_on_full_grid true
    ⟨(List.range 36).map
        (fun i => ⟨"pane-" ++ toString i, "Terminal " ++ toString i⟩),
      "pane-0", Orientation.horizontal⟩
    "q" (by decide)).1

/-- `findIndex` over a list split around the first matching element. -/
lemma findIdx?_append_cons {α : Type} (p : α → Bool) (l₁ l₂ : List α)
    (a : α) (h₁ : ∀ x ∈ l₁, p x = false) (ha : p a = true) :
    (l₁ ++ a :: l₂).findIdx? p = some l₁.length := by
  induction l₁ with
  | nil => simp [List.findIdx?_cons, ha]
  | cons x xs ih =>
    have hx : p x = false := h₁ x (List.mem_cons_self x xs)
    have ih' := ih (fun y hy => h₁ y (List.mem_cons_of_mem x hy))
    simp [List.findIdx?_cons, hx, ih']

/-- `splice(activeIndex + 1, 0, pane)` on a list split at the active
pane lands the new element immediately after it. -/
lemma insertIdx_after {α : Type} (l₁ l₂ : List α) (a b : α) :
    List.insertIdx (l₁.length + 1) b (l₁ ++ a :: l₂) =
      l₁ ++ a :: b :: l₂ := by
  induction l₁ with
  | nil => simp [List.insertIdx_succ_cons]
  | cons x xs ih => simp [List.insertIdx_succ_cons, ih]

/-- C7: in a ready project with fewer than 36 panes and the active id
present, a split inserts exactly one fresh pane immediately after the
active pane, records the orientation used as the last split, and
leaves the ids and relative order of the pre-existing panes unchanged
(filtering the fresh id back out restores the original list). -/
theorem handleKey_split_inserts_after_active (l₁ l₂ : List Pane)
    (active : Pane) (freshId : String) (ls : Orientation)
    (hleft : ∀ x ∈ l₁, (x.id == active.id) = false)
    (hlen : (l₁ ++ active :: l₂).length < MAX_SPLITS * MAX_SPLITS)
    (hfresh : ∀ x ∈ l₁ ++ active :: l₂, x.id ≠ freshId) :
    handleKey true ⟨l₁ ++ active :: l₂, active.id, ls⟩
        PaneCommand.splitHorizontal freshId =
      ⟨l₁ ++ active ::
          createPane freshId ((l₁ ++ active :: l₂).length + 1) :: l₂,
        active.id, Orientation.horizontal⟩ ∧
    handleKey true ⟨l₁ ++ active :: l₂, active.id, ls⟩
        PaneCommand.splitVertical freshId =
      ⟨l₁ ++ active ::
          createPane freshId ((l₁ ++ active :: l₂).length + 1) :: l₂,
        active.id, Orientation.vertical⟩ ∧
    List.filter (fun pane => !(pane.id == freshId))
        (l₁ ++ active ::
          createPane freshId ((l₁ ++ active :: l₂).length + 1) :: l₂) =
      l₁ ++ active :: l₂ := by
  have hguard : ¬ (MAX_SPLITS * MAX_SPLITS ≤
      (l₁ ++ active :: l₂).length) := by omega
  have hidx : (l₁ ++ active :: l₂).findIdx?
      (fun pane => pane.id == active.id) = some l₁.length :=
    findIdx?_append_cons _ l₁ l₂ active hleft (by simp)
  have hsplit : splitPanes (l₁ ++ active :: l₂) active.id freshId =
      l₁ ++ active ::
        createPane freshId ((l₁ ++ active :: l₂).length + 1) :: l₂ := by
    simp only [splitPanes, hidx]
    exact insertIdx_after l₁ l₂ active _
  have hl₁ : List.filter (fun pane => !(pane.id == freshId)) l₁ = l₁ :=
    List.filter_eq_self.mpr
      (fun x hx => by simp [hfresh x (List.mem_append_left _ hx)])
  have hl₂ : List.filter (fun pane => !(pane.id == freshId)) l₂ = l₂ :=
    List.filter_eq_self.mpr
      (fun x hx => by
        simp [hfresh x
          (List.mem_append_right _ (List.mem_cons_of_mem _ hx))])
  have hactive : active.id ≠ freshId :=
    hfresh active (List.mem_append_right _ (List.mem_cons_self _ _))
  have hlen' : l₁.length + (l₂.length + 1) <
      MAX_SPLITS * MAX_SPLITS := by simpa using hlen
  refine ⟨?_, ?_, ?_⟩
  · simp [handleKey, hguard, hsplit]
    exact hlen'
  · simp [handleKey, hguard, hsplit]
    exact hlen'
  · simp [List.filter_append, List.filter_cons, hl₁, hl₂, hactive,
      createPane]

/-- Witness for C7: splitting a one-pane list. -/
theorem handleKey_split_inserts_after_active_witness :
    handleKey true ⟨[⟨"a", "Terminal 1"⟩], "a", Orientation.vertical⟩
        PaneCommand.splitHorizontal "b" =
      ⟨[⟨"a", "Terminal 1"⟩, createPane "b" 2], "a",
        Orientation.horizontal⟩ :=
  (handleKey_split_inserts_after_active [] [] ⟨"a", "Terminal 1"⟩ "b"
    Orientation.vertical (by simp) (by decide) (by decide)).1

/-- C8: closing a pane by id (pane ids pairwise distinct) removes
exactly that pane unless it is the only one, in which case the list is
unchanged; when the closed pane was the active one, the repair effect
reassigns the active id to the first remaining pane. -/
theorem handleClose_removes_exactly (l₁ l₂ : List Pane) (c : Pane)
    (hnodup : ((l₁ ++ c :: l₂).map Pane.id).Nodup) :
    ((l₁ ++ c :: l₂).length = 1 →
      handleClose (l₁ ++ c :: l₂) c.id = l₁ ++ c :: l₂) ∧
    (2 ≤ (l₁ ++ c :: l₂).length →
      handleClose (l₁ ++ c :: l₂) c.id = l₁ ++ l₂ ∧
      l₁ ++ l₂ ≠ [] ∧
      repairActiveId (l₁ ++ l₂) c.id = ((l₁ ++ l₂).headD c).id) := by
  have hnotin : c.id ∉ (l₁.map Pane.id ++ l₂.map Pane.id) := by
    rw [List.map_append, List.map_cons] at hnodup
    exact (List.nodup_cons.mp (List.nodup_middle.mp hnodup)).1
  have hmem : ∀ x ∈ l₁ ++ l₂, x.id ≠ c.id := by
    intro x hx heq
    apply hnotin
    rw [← List.map_append, ← heq]
    exact List.mem_map_of_mem Pane.id hx
  constructor
  · intro h1
    simp [handleClose, h1]
  · intro h2
    have hguard : ¬ ((l₁ ++ c :: l₂).length ≤ 1) := by omega
    have hl₁ : List.filter (fun pane => !(pane.id == c.id)) l₁ = l₁ :=
      List.filter_eq_self.mpr
        (fun x hx => by simp [hmem x (List.mem_append_left _ hx)])
    have hl₂ : List.filter (fun pane => !(pane.id == c.id)) l₂ = l₂ :=
      List.filter_eq_self.mpr
        (fun x hx => by simp [hmem x (List.mem_append_right _ hx)])
    have hfilter : List.filter (fun pane => !(pane.id == c.id))
        (l₁ ++ c :: l₂) = l₁ ++ l₂ := by
      simp [List.filter_append, List.filter_cons, hl₁, hl₂]
    have hne : l₁ ++ l₂ ≠ [] := by
      have hlen : 0 < (l₁ ++ l₂).length := by
        simp only [List.length_append, List.length_cons] at h2 ⊢
        omega
      exact List.length_pos.mp hlen
    have hfind : (l₁ ++ l₂).find? (fun pane => pane.id == c.id) = none :=
      List.find?_eq_none.mpr (fun x hx => by simp [hmem x hx])
    have hrepair : repairActiveId (l₁ ++ l₂) c.id =
        ((l₁ ++ l₂).headD c).id := by
      cases hl : l₁ ++ l₂ with
      | nil => exact absurd hl hne
      | cons pane rest =>
        rw [hl] at hfind
        simp [repairActiveId, hfind]
    refine ⟨?_, hne, hrepair⟩
    simp [handleClose, hguard, hfilter]
    simp only [List.length_append, List.length_cons] at h2
    omega

/-- Witness for C8: closing the middle pane of a three-pane list while
it is active. -/
theorem handleClose_removes_exactly_witness :
    handleClose [⟨"a", "Terminal 1"⟩, ⟨"b", "Terminal 2"⟩,
        ⟨"c", "Terminal 3"⟩] "b" =
      [⟨"a", "Terminal 1"⟩, ⟨"c", "Terminal 3"⟩] ∧
    repairActiveId [⟨"a", "Terminal 1"⟩, ⟨"c", "Terminal 3"⟩] "b" =
      "a" :=
  ⟨((handleClose_removes_exactly [⟨"a", "Terminal 1"⟩]
      [⟨"c", "Terminal 3"⟩] ⟨"b", "Terminal 2"⟩ (by decide)).2
      (by decide)).1,
    ((handleClose_removes_exactly [⟨"a", "Terminal 1"⟩]
      [⟨"c", "Terminal 3"⟩] ⟨"b", "Terminal 2"⟩ (by decide)).2
      (by decide)).2.2⟩

/-- JavaScript `String.prototype.trim`: strip whitespace from both
ends.  Implemented over the character list because it must evaluate
inside proofs; `Char.isWhitespace` stands in for the JS whitespace
class. -/
def jsTrim (s : String) : String :=
  String.mk
    (((s.data.dropWhile Char.isWhitespace).reverse.dropWhile
      Char.isWhitespace).reverse)

/-- `SessionSnapshot` (App.tsx:34-43 / `buildSnapshot`'s result):
project path, workspace name, ordered `{id, name}` pane list, active
id, last split orientation, optional pinned grid layout id, and the
`updatedAt` stamp. -/
structure SessionSnapshot where
  projectPath : String
  workspaceName : String
  panes : List Pane
  activeId : String
  lastSplit : Orientation
  gridLayoutId : Option String
  updatedAt : Nat
deriving DecidableEq, Repr

/-- `buildSnapshot` (App.tsx:1629-1647): `null` when the trimmed
project path is empty or there are no panes, otherwise the snapshot
record; `Date.now()` is the explicit `now` argument,
`nextGridLayoutId ?? undefined` is the `Option` as is. -/
def buildSnapshot (nextProjectPath nextWorkspaceName : String)
    (nextPanes : List Pane) (nextActiveId : String)
    (nextLastSplit : Orientation) (nextGridLayoutId : Option String)
    (now : Nat) : Option SessionSnapshot :=
  if jsTrim nextProjectPath = "" ∨ nextPanes.length = 0 then none
  else some
    { projectPath := nextProjectPath
      workspaceName := nextWorkspaceName
      panes := nextPanes.map (fun pane => ⟨pane.id, pane.name⟩)
      activeId := nextActiveId
      lastSplit := nextLastSplit
      gridLayoutId := nextGridLayoutId
      updatedAt := now }

/-- The tab runtime state that `loadTabRuntime` rebuilds, restricted to
the fields the snapshot branch sets from the snapshot. -/
structure TabRuntime where
  projectPath : String
  isProjectReady : Bool
  panes : List Pane
  activeId : String
  lastSplit : Orientation
deriving DecidableEq, Repr

/-- The snapshot branch of `loadTabRuntime` (App.tsx:1686-1718): panes
are rebuilt with the recorded name or the `Terminal ${index + 1}`
fallback for an empty one; the active id is kept when still among the
snapshot's panes, else the first pane's id (`snapshot.panes[0]`,
modelled with a dummy default for the empty list the source would
throw on); the orientation is taken as recorded
(`snapshot.lastSplit ?? "horizontal"` never falls back here since the
field is total).  Workspace-name, setup-form and layout-tick updates
touch none of these fields and are not modelled. -/
def loadTabRuntime (snapshot : SessionSnapshot) : TabRuntime :=
  { projectPath := snapshot.projectPath
    isProjectReady := true
    panes := snapshot.panes.enum.map
      (fun ip =>
        (⟨ip.2.id,
          if ip.2.name = "" then "Terminal " ++ toString (ip.1 + 1)
          else ip.2.name⟩ : Pane))
    activeId :=
      if snapshot.panes.any (fun pane => pane.id == snapshot.activeId)
      then snapshot.activeId
      else (snapshot.panes.headD ⟨"", ""⟩).id
    lastSplit := snapshot.lastSplit }

/-- Rebuilding enumerated panes restores the list whenever no recorded
name is empty, for any enumeration offset. -/
lemma enumFrom_name_restore (l : List Pane)
    (h : ∀ p ∈ l, p.name ≠ "") : ∀ n,
    (List.enumFrom n l).map
      (fun ip =>
        (⟨ip.2.id,
          if ip.2.name = "" then "Terminal " ++ toString (ip.1 + 1)
          else ip.2.name⟩ : Pane)) = l := by
  induction l with
  | nil => intro n; rfl
  | cons p rest ih =>
    intro n
    have hp : p.name ≠ "" := h p (List.mem_cons_self p rest)
    have ih' := ih (fun q hq => h q (List.mem_cons_of_mem p hq)) (n + 1)
    simp [List.enumFrom, hp, ih']

/-- C9: for a live tab state with a non-blank project path and at least
one pane, each with a non-empty name (true of every pane the app
creates), building a snapshot and rehydrating it reproduces the pane
list (ids and names in order), the active id with the
first-pane fallback, the orientation, and the project path. -/
theorem buildSnapshot_loadTabRuntime_roundtrip
    (projectPath workspaceName : String) (panes : List Pane)
    (activeId : String) (lastSplit : Orientation)
    (gridLayoutId : Option String) (now : Nat)
    (hpath : jsTrim projectPath ≠ "")
    (hpanes : panes ≠ [])
    (hnames : ∀ p ∈ panes, p.name ≠ "") :
    buildSnapshot projectPath workspaceName panes activeId lastSplit
        gridLayoutId now =
      some ⟨projectPath, workspaceName,
        panes.map (fun pane => ⟨pane.id, pane.name⟩), activeId,
        lastSplit, gridLayoutId, now⟩ ∧
    (loadTabRuntime ⟨projectPath, workspaceName,
        panes.map (fun pane => ⟨pane.id, pane.name⟩), activeId,
        lastSplit, gridLayoutId, now⟩).panes = panes ∧
    (loadTabRuntime ⟨projectPath, workspaceName,
        panes.map (fun pane => ⟨pane.id, pane.name⟩), activeId,
        lastSplit, gridLayoutId, now⟩).activeId =
      (if panes.any (fun pane => pane.id == activeId) then activeId
       else (panes.headD ⟨"", ""⟩).id) ∧
    (loadTabRuntime ⟨projectPath, workspaceName,
        panes.map (fun pane => ⟨pane.id, pane.name⟩), activeId,
        lastSplit, gridLayoutId, now⟩).lastSplit = lastSplit ∧
    (loadTabRuntime ⟨projectPath, workspaceName,
        panes.map (fun pane => ⟨pane.id, pane.name⟩), activeId,
        lastSplit, gridLayoutId, now⟩).projectPath = projectPath ∧
    (loadTabRuntime ⟨projectPath, workspaceName,
        panes.map (fun pane => ⟨pane.id, pane.name⟩), activeId,
        lastSplit, gridLayoutId, now⟩).isProjectReady = true := by
  have hlen : ¬ panes.length = 0 :=
    fun h => hpanes (List.length_eq_zero.mp h)
  have hmap : panes.map (fun pane => (⟨pane.id, pane.name⟩ : Pane)) =
      panes := by
    have hfun : (fun pane : Pane => (⟨pane.id, pane.name⟩ : Pane)) =
        id := funext (fun pane => rfl)
    rw [hfun, List.map_id]
  refine ⟨?_, ?_, ?_, rfl, rfl, rfl⟩
  · simp [buildSnapshot, hpath, hlen]
  · show (List.enum (panes.map (fun pane => (⟨pane.id, pane.name⟩ :
        Pane)))).map _ = panes
    rw [hmap]
    exact enumFrom_name_restore panes hnames 0
  · show (if (panes.map (fun pane => (⟨pane.id, pane.name⟩ :
        Pane))).any (fun pane => pane.id == activeId) then activeId
      else ((panes.map (fun pane => (⟨pane.id, pane.name⟩ :
        Pane))).headD ⟨"", ""⟩).id) = _
    rw [hmap]

/-- Witness for C9 on a concrete two-pane tab whose recorded active id
is the second pane. -/
theorem buildSnapshot_loadTabRuntime_roundtrip_witness :
    buildSnapshot "/proj" "ws"
        [⟨"a", "Terminal 1"⟩, ⟨"b", "Terminal 2"⟩] "b"
        Orientation.vertical none 5 =
      some ⟨"/proj", "ws",
        ([⟨"a", "Terminal 1"⟩, ⟨"b", "Terminal 2"⟩] : List Pane).map
          (fun pane => (⟨pane.id, pane.name⟩ : Pane)), "b",
        Orientation.vertical, none, 5⟩ ∧
    (loadTabRuntime ⟨"/proj", "ws",
        ([⟨"a", "Terminal 1"⟩, ⟨"b", "Terminal 2"⟩] : List Pane).map
          (fun pane => (⟨pane.id, pane.name⟩ : Pane)), "b",
        Orientation.vertical, none, 5⟩).panes =
      [⟨"a", "Terminal 1"⟩, ⟨"b", "Terminal 2"⟩] :=
  ⟨(buildSnapshot_loadTabRuntime_roundtrip "/proj" "ws"
      [⟨"a", "Terminal 1"⟩, ⟨"b", "Terminal 2"⟩] "b"
      Orientation.vertical none 5 (by decide) (by decide)
      (by decide)).1,
    (buildSnapshot_loadTabRuntime_roundtrip "/proj" "ws"
      [⟨"a", "Terminal 1"⟩, ⟨"b", "Terminal 2"⟩] "b"
      Orientation.vertical none 5 (by decide) (by decide)
      (by decide)).2.1⟩

/-- `const AGENT_STREAM_IDLE_MS = 1200` (App.tsx:466). -/
def AGENT_STREAM_IDLE_MS : Nat := 1200

/-- `const AGENT_BUSY_GRACE_MS = 1900` (App.tsx:467). -/
def AGENT_BUSY_GRACE_MS : Nat := 1900

/-- `AGENT_RECHECK_MS = Math.max(idle, grace) + 120` (App.tsx:468). -/
def AGENT_RECHECK_MS : Nat :=
  Nat.max AGENT_STREAM_IDLE_MS AGENT_BUSY_GRACE_MS + 120

/-- JavaScript `String.prototype.toLowerCase`, over the character
list so it evaluates inside proofs. -/
def jsToLower (s : String) : String := String.mk (s.data.map Char.toLower)

/-- Substring search over character lists: does `pat` occur
contiguously in the remaining text? -/
def listContainsSub (pat : List Char) : List Char → Bool
  | [] => pat.isEmpty
  | c :: rest => pat.isPrefixOf (c :: rest) || listContainsSub pat rest

/-- JavaScript `s.includes(pat)` for strings. -/
def jsIncludes (s pat : String) : Bool := listContainsSub pat.data s.data

/-- The per-pane busy-classifier refs of `TerminalPane`
(App.tsx:823-825): `awaitingResponseRef`, `lastOutputAtRef`,
`lastBusySignalAtRef` (epoch milliseconds, initially 0). -/
structure BusyState where
  awaitingResponse : Bool
  lastOutputAt : Nat
  lastBusySignalAt : Nat
deriving DecidableEq, Repr

/-- The busy-state update of the `term.onData` handler
(App.tsx:1003-1016): input containing the interrupt character `\u0003`
force-clears `awaitingResponse` and zeroes `lastBusySignalAt`;
otherwise input containing `\r` arms `awaitingResponse` and stamps
`lastOutputAt`.  `data.includes("\u0003")` on a one-character needle is
character containment.  The `pty_write` forwarding and the sync
scheduling are external effects. -/
def onDataBusyUpdate (s : BusyState) (now : Nat) (data : String) :
    BusyState :=
  if data.data.contains '\x03' then
    { s with awaitingResponse := false, lastBusySignalAt := 0 }
  else if data.data.contains '\r' then
    { s with awaitingResponse := true, lastOutputAt := now }
  else s

/-- `hasInterruptSignal` (App.tsx:869-887): scan the emulator's buffer
lines from `max(0, viewportY - 1)` to
`min(buffer.length - 1, viewportY + rows + 1)` for the lowercase
marker `"esc to interrupt"`, then the space-joined visible text for a
marker wrapped across lines.  The emulator buffer is the
`buffer : List String` argument (`getLine(...)?.translateToString(true)
?? ""` is `get?` with a `""` default). -/
def hasInterruptSignal (buffer : List String) (viewportY rows : Nat) :
    Bool :=
  let marker := "esc to interrupt"
  let viewportStart : Nat := viewportY - 1
  let viewportEnd : Int :=
    if ((buffer.length : Int) - 1) ≤ ((viewportY : Int) + rows + 1)
    then (buffer.length : Int) - 1
    else (viewportY : Int) + rows + 1
  let lineCount : Nat := (viewportEnd + 1 - (viewportStart : Int)).toNat
  let visibleText := (List.range' viewportStart lineCount).map
    (fun lineIndex => jsToLower ((buffer.get? lineIndex).getD ""))
  visibleText.any (fun line => jsIncludes line marker) ||
    jsIncludes (String.intercalate " " visibleText) marker

/-- `syncWorkingFromTerminal` (App.tsx:889-901): recompute
`working = hasInterruptMarker || recent-busy-signal || awaited-recent-
output`, clearing a stale `awaitingResponse` first.  Nat subtraction
truncates at 0 exactly where the JS difference would be negative, and
both sides of that comparison stay below the grace/idle windows, so
the booleans agree.  Returns the updated state and the `working` flag
passed to `setWorkingState`. -/
def syncWorkingFromTerminal (buffer : List String)
    (viewportY rows : Nat) (now : Nat) (s : BusyState) :
    BusyState × Bool :=
  let hasInterruptMarker := hasInterruptSignal buffer viewportY rows
  let hasRecentBusySignal :=
    decide (now - s.lastBusySignalAt < AGENT_BUSY_GRACE_MS)
  let hasRecentOutput := s.awaitingResponse &&
    decide (now - s.lastOutputAt < AGENT_STREAM_IDLE_MS)
  let s' :=
    if !hasInterruptMarker && s.awaitingResponse && !hasRecentOutput
    then { s with awaitingResponse := false } else s
  (s', hasInterruptMarker || hasRecentBusySignal || hasRecentOutput)

/-- C5 counterexample: an interrupt keystroke does clear
`awaitingResponse` and zero `lastBusySignalAt`, but the immediately
following re-evaluation still computes `working = true` when the
`"esc to interrupt"` marker is visible in the emulator viewport — not
`working = false` as claimed for every pane state. -/
theorem interrupt_working_counterexample :
    (onDataBusyUpdate ⟨true, 99990, 99990⟩ 100000
        "\x03").awaitingResponse = false ∧
    (onDataBusyUpdate ⟨true, 99990, 99990⟩ 100000
        "\x03").lastBusySignalAt = 0 ∧
    (syncWorkingFromTerminal ["esc to interrupt"] 0 24 100000
        (onDataBusyUpdate ⟨true, 99990, 99990⟩ 100000 "\x03")).2 =
      true := by
  decide

/-- C5 (amended): processing terminal input containing the interrupt
character sets `awaitingResponse := false` and `lastBusySignalAt := 0`,
and the immediately following re-evaluation computes `working = false`
regardless of how recent the last output chunk or busy signal was —
provided no interrupt marker is visible in the emulator viewport and
the clock is at least the busy-grace window (always true of epoch
milliseconds). -/
theorem interrupt_input_forces_idle (s : BusyState) (now : Nat)
    (data : String) (buffer : List String) (viewportY rows : Nat)
    (hdata : data.data.contains '\x03' = true)
    (hmarker : hasInterruptSignal buffer viewportY rows = false)
    (hnow : AGENT_BUSY_GRACE_MS ≤ now) :
    (onDataBusyUpdate s now data).awaitingResponse = false ∧
    (onDataBusyUpdate s now data).lastBusySignalAt = 0 ∧
    (syncWorkingFromTerminal buffer viewportY rows now
        (onDataBusyUpdate s now data)).2 = false := by
  have h1 : onDataBusyUpdate s now data =
      { s with awaitingResponse := false, lastBusySignalAt := 0 } := by
    unfold onDataBusyUpdate
    rw [if_pos hdata]
  refine ⟨by simp [h1], by simp [h1], ?_⟩
  rw [h1]
  simp [syncWorkingFromTerminal, hmarker]
  exact hnow

/-- Witness for C5 (amended): a pane with a just-stamped busy signal
and pending response, interrupted with the marker off-screen. -/
theorem interrupt_input_forces_idle_witness :
    (onDataBusyUpdate ⟨true, 1999, 1999⟩ 2000
        "\x03").awaitingResponse = false ∧
    (onDataBusyUpdate ⟨true, 1999, 1999⟩ 2000
        "\x03").lastBusySignalAt = 0 ∧
    (syncWorkingFromTerminal ["ready."] 0 24 2000
        (onDataBusyUpdate ⟨true, 1999, 1999⟩ 2000 "\x03")).2 = false :=
  interrupt_input_forces_idle ⟨true, 1999, 1999⟩ 2000 "\x03" ["ready."]
    0 24 (by decide) (by decide) (by decide)

/-- The two call sites that issue `pty_create` for a session: the
terminal-pane setup and the server manager's start button. -/
inductive CreateSite where
  | paneSetup
  | serverStart
deriving DecidableEq, Repr

/-- Which call sites route their `pty_create` through the global
creation queue: `TerminalPane.setup` awaits
`enqueuePtyCreate(createWithRetry)` (App.tsx:981), but
`ServerManager.startServer` awaits `invoke("pty_create", ...)` directly
(App.tsx:1260), bypassing `enqueuePtyCreate` entirely. -/
def usesCreationQueue : CreateSite → Bool
  | CreateSite.paneSetup => true
  | CreateSite.serverStart => false

/-- One `pty_create` request: whether it is routed through
`enqueuePtyCreate`, when it is issued, and how long the spawn call
stays in flight. -/
structure CreateRequest where
  viaQueue : Bool
  issueAt : Nat
  duration : Nat
deriving DecidableEq, Repr

/-- Execution model of `enqueuePtyCreate` (App.tsx:741-748): the chain
`next = ptyCreateQueue.then(task, task); ptyCreateQueue = next.catch(...)`
starts each queued task only once the previous queued task settles
(success and failure alike), so a queued request starts at
`max issueAt queueFree` and advances the queue-free time to its end;
a direct `invoke("pty_create")` runs at its own issue time and leaves
the queue untouched.  Each result entry is `(viaQueue, start, end)`
with the call in flight on `[start, end)`. -/
def scheduleCreates (queueFree : Nat) :
    List CreateRequest → List (Bool × Nat × Nat)
  | [] => []
  | r :: rs =>
    if r.viaQueue then
      (true, Nat.max r.issueAt queueFree,
          Nat.max r.issueAt queueFree + r.duration) ::
        scheduleCreates (Nat.max r.issueAt queueFree + r.duration) rs
    else
      (false, r.issueAt, r.issueAt + r.duration) ::
        scheduleCreates queueFree rs

/-- Every queued entry of the schedule starts no earlier than the
queue-free time the schedule began with. -/
lemma scheduleCreates_queued_lb (rs : List CreateRequest) : ∀ q,
    ∀ e ∈ scheduleCreates q rs, e.1 = true → q ≤ e.2.1 := by
  induction rs with
  | nil => intro q e he; simp [scheduleCreates] at he
  | cons r rs ih =>
    intro q e he htrue
    by_cases hv : r.viaQueue
    · rw [show scheduleCreates q (r :: rs) =
          (true, Nat.max r.issueAt q, Nat.max r.issueAt q + r.duration)
            :: scheduleCreates (Nat.max r.issueAt q + r.duration) rs
        from by rw [scheduleCreates, if_pos hv]] at he
      rcases List.mem_cons.mp he with he | he
      · subst he
        exact Nat.le_max_right r.issueAt q
      · have hq : q ≤ Nat.max r.issueAt q + r.duration :=
          Nat.le_trans (Nat.le_max_right _ _) (Nat.le_add_right _ _)
        exact Nat.le_trans hq (ih _ e he htrue)
    · rw [show scheduleCreates q (r :: rs) =
          (false, r.issueAt, r.issueAt + r.duration)
            :: scheduleCreates q rs
        from by rw [scheduleCreates, if_neg hv]] at he
      rcases List.mem_cons.mp he with he | he
      · subst he
        simp at htrue
      · exact ih q e he htrue

/-- The queued entries of any schedule are strictly sequential: each
ends no later than the next begins. -/
lemma scheduleCreates_queued_sequential (rs : List CreateRequest) :
    ∀ q, ((scheduleCreates q rs).filter (fun e => e.1)).Pairwise
      (fun a b => a.2.2 ≤ b.2.1) := by
  induction rs with
  | nil => intro q; simp [scheduleCreates]
  | cons r rs ih =>
    intro q
    by_cases hv : r.viaQueue
    · rw [show scheduleCreates q (r :: rs) =
          (true, Nat.max r.issueAt q, Nat.max r.issueAt q + r.duration)
            :: scheduleCreates (Nat.max r.issueAt q + r.duration) rs
        from by rw [scheduleCreates, if_pos hv]]
      have hf : List.filter (fun e : Bool × Nat × Nat => e.1)
          ((true, Nat.max r.issueAt q, Nat.max r.issueAt q + r.duration)
            :: scheduleCreates (Nat.max r.issueAt q + r.duration) rs) =
          (true, Nat.max r.issueAt q, Nat.max r.issueAt q + r.duration)
            :: List.filter (fun e => e.1)
              (scheduleCreates (Nat.max r.issueAt q + r.duration) rs) :=
        List.filter_cons_of_pos rfl
      rw [hf]
      refine List.Pairwise.cons ?_ (ih _)
      intro b hb
      have hb' := List.mem_filter.mp hb
      exact scheduleCreates_queued_lb rs _ b hb'.1 (by simpa using hb'.2)
    · rw [show scheduleCreates q (r :: rs) =
          (false, r.issueAt, r.issueAt + r.duration)
            :: scheduleCreates q rs
        from by rw [scheduleCreates, if_neg hv]]
      have hf : List.filter (fun e : Bool × Nat × Nat => e.1)
          ((false, r.issueAt, r.issueAt + r.duration)
            :: scheduleCreates q rs) =
          List.filter (fun e => e.1) (scheduleCreates q rs) :=
        List.filter_cons_of_neg (by simp)
      rw [hf]
      exact ih q

/-- C4 counterexample: not every `pty_create` goes through the global
FIFO queue — `ServerManager.startServer` bypasses it — and a direct
server-manager create can be in flight simultaneously with a queued
pane create: with a queued request in flight on `[0, 10)` and a direct
request issued at 5 for 10ms, the schedule puts both in flight during
`[5, 10)`. -/
theorem creation_queue_counterexample :
    usesCreationQueue CreateSite.serverStart = false ∧
    scheduleCreates 0 [⟨true, 0, 10⟩, ⟨false, 5, 10⟩] =
      [(true, 0, 10), (false, 5, 15)] ∧
    ((0 : Nat) < 15 ∧ (5 : Nat) < 10) := by
  decide

/-- C4 (amended): every terminal-pane creation request is issued
through `enqueuePtyCreate` and those queued spawn attempts are
strictly sequential — each ends before the next starts, so no two
queued `pty_create` calls ever overlap; `ServerManager.startServer`,
however, issues `pty_create` outside the queue. -/
theorem enqueuePtyCreate_serializes (q : Nat)
    (rs : List CreateRequest) :
    usesCreationQueue CreateSite.paneSetup = true ∧
    usesCreationQueue CreateSite.serverStart = false ∧
    ((scheduleCreates q rs).filter (fun e => e.1)).Pairwise
      (fun a b => a.2.2 ≤ b.2.1 ∧
        ¬ (a.2.1 < b.2.2 ∧ b.2.1 < a.2.2)) := by
  refine ⟨rfl, rfl, (scheduleCreates_queued_sequential rs q).imp ?_⟩
  intro a b h
  exact ⟨h, fun hc => absurd (Nat.lt_of_lt_of_le hc.2 h)
    (Nat.lt_irrefl _)⟩

end Greepy
